import Mathlib

/-!
Verification of the kloppy tracking-data ingestion pipeline.

This file shallowly embeds the three tracking deserializers
(`tracab/tracab_dat.py`, `sportec/deserializer.py`, `pff.py`) and proves or
refutes the specified properties about them.  Python floats are modelled as
rationals, machine integers as `Nat`/`Int`, raising code as `Except`, and the
reciprocal `1 / sample_rate` as an integral `sample : Nat` (it is `1` for the
documented `sample_rate = 1.0` and `10` for `0.1`, both exact in the source).
External collaborators (metadata loading, coordinate transformer,
`attacking_direction_from_frame`) stay abstract: the transformer is the
identity and the per-frame direction estimate is a function parameter.
-/

namespace Kloppy

/-- Side of a team (kloppy `Ground`). -/
inductive Ground where
  | home
  | away
deriving DecidableEq, Repr

/-- Ball state enumeration (kloppy `BallState`). -/
inductive BallState where
  | alive
  | dead
deriving DecidableEq, Repr

/-- Attacking direction enumeration (kloppy `AttackingDirection`). -/
inductive AttackingDirection where
  | ltr
  | rtl
  | notSet
deriving DecidableEq, Repr

/-- The parts of a kloppy `Player` the pipeline reads or writes. -/
structure Player where
  player_id : String
  ground : Ground
  jersey_no : Nat
deriving DecidableEq, Repr

/-- A 3D point whose components may be absent (kloppy `Point3D` built from
optional provider fields). -/
structure Point3 where
  x : Option ℚ
  y : Option ℚ
  z : Option ℚ
deriving DecidableEq, Repr

/-- Kloppy `PlayerData`: optional 2D coordinates (whose components may again be
absent, as in the PFF reader) and an optional speed. -/
structure PlayerData where
  coordinates : Option (Option ℚ × Option ℚ)
  speed : Option ℚ
deriving DecidableEq, Repr

/-- Kloppy `Period`: id plus time bounds, timestamps in seconds. -/
structure Period where
  id : Nat
  start_timestamp : ℚ
  end_timestamp : ℚ
deriving DecidableEq, Repr

/-- Kloppy `Frame` restricted to the fields the three readers populate. -/
structure Frame where
  frame_id : Nat
  timestamp : ℚ
  ball_coordinates : Option Point3
  ball_state : Option BallState
  ball_owning_team : Option Ground
  period : Period
  players_data : List (Player × PlayerData)
deriving DecidableEq, Repr

/-- The record list of a kloppy `TrackingDataset`. -/
structure TrackingDataset where
  records : List Frame
deriving DecidableEq, Repr

/-- The raising paths of the three readers (`DeserializationError`, the PFF
`IndexError` on `et_frames[i]`, the `NameError` of an unbound loop variable,
and `max` over an empty vote). -/
inductive DeserializationError where
  | unknownPlayerTeamId (team_id : Int)
  | unknownBallOwningTeam (code : String)
  | unknownBallState (code : String)
  | unboundPlayer
  | indexOutOfRange
  | emptyVote
deriving DecidableEq, Repr

/-- Python truthiness guard `if self.limit and n >= self.limit`: a limit of
`None` or `0` never fires. -/
def limitActive (limit : Option Nat) (n : Nat) : Bool :=
  match limit with
  | none => false
  | some l => decide (0 < l) && decide (l ≤ n)

/-- Assignment `players_data[player] = data` on a Python dict: update in place
when the key is present, append otherwise. -/
def assocUpsert (p : Player) (d : PlayerData) :
    List (Player × PlayerData) → List (Player × PlayerData)
  | [] => [(p, d)]
  | (q, e) :: rest =>
    if q = p then (q, d) :: rest else (q, e) :: assocUpsert p d rest

/-- Records of an `Except`-returning deserialize call, the empty list when the
call unwound with an error (no partial dataset exists then). -/
def recordsOf : Except DeserializationError TrackingDataset → List Frame
  | .ok ds => ds.records
  | .error _ => []

/-! ## TRACAB .dat reader (`tracab_dat.py`) -/

/-- One comma-separated player chunk of a TRACAB line, already tokenized:
`team_id, target_id, jersey_no, x, y, speed`. -/
structure TracabPlayerChunk where
  team_id : Int
  target_id : Int
  jersey_no : Nat
  x : ℚ
  y : ℚ
  speed : ℚ
deriving DecidableEq, Repr

/-- The ball segment of a TRACAB line: `x, y, z, speed, owning, state` with the
raw provider codes kept as strings. -/
structure TracabBall where
  x : ℚ
  y : ℚ
  z : ℚ
  speed : ℚ
  owning : String
  state : String
deriving DecidableEq, Repr

/-- One TRACAB .dat line after the lexical splitting of `_frame_from_line`
(`frame_id:players;ball;:`). -/
structure TracabLine where
  frame_id : Nat
  players : List TracabPlayerChunk
  ball : TracabBall
deriving DecidableEq, Repr

/-- Rendering of `Team.ground` used in the placeholder id string. -/
def groundStr : Ground → String
  | .home => "home"
  | .away => "away"

/-- Modelled from the spec: `Team.get_player_by_jersey_number` lives in the
roster collaborator (`kloppy.domain`), outside the given sources; per spec
section 4.4, player resolution is by jersey number within the team roster. -/
def get_player_by_jersey_number (roster : List Player) (jersey_no : Nat) :
    Option Player :=
  roster.find? (fun p => p.jersey_no == jersey_no)

/-- TRACAB player resolution (tracab_dat.py lines 79-87): look the jersey up in
the roster; on a miss synthesize a placeholder `Player` with identity
`{ground}_{jersey}` and append it to the roster. -/
def resolveTracabPlayer (ground : Ground) (roster : List Player)
    (jersey_no : Nat) : Player × List Player :=
  match get_player_by_jersey_number roster jersey_no with
  | some player => (player, roster)
  | none =>
    let player : Player :=
      { player_id := groundStr ground ++ "_" ++ toString jersey_no,
        ground := ground,
        jersey_no := jersey_no }
    (player, roster ++ [player])

/-- State threaded through the player loop of `_frame_from_line`: the two
rosters (extended by placeholder synthesis) and the `players_data` dict. -/
structure TracabPlayersState where
  home : List Player
  away : List Player
  players_data : List (Player × PlayerData)
deriving DecidableEq, Repr

/-- One iteration of the player loop of `_frame_from_line` (tracab_dat.py
lines 64-91): team id 1 is home, 0 is away, ids -1/3/4 are skipped, every
other id raises `DeserializationError`. -/
def tracabStepChunk (st : TracabPlayersState) (c : TracabPlayerChunk) :
    Except DeserializationError TracabPlayersState :=
  if c.team_id = 1 then
    let r := resolveTracabPlayer .home st.home c.jersey_no
    .ok { st with
          home := r.2,
          players_data :=
            assocUpsert r.1 ⟨some (some c.x, some c.y), some c.speed⟩
              st.players_data }
  else if c.team_id = 0 then
    let r := resolveTracabPlayer .away st.away c.jersey_no
    .ok { st with
          away := r.2,
          players_data :=
            assocUpsert r.1 ⟨some (some c.x, some c.y), some c.speed⟩
              st.players_data }
  else if c.team_id = -1 ∨ c.team_id = 3 ∨ c.team_id = 4 then
    .ok st
  else
    .error (.unknownPlayerTeamId c.team_id)

/-- The player loop of `_frame_from_line`, folded over the chunks of the line;
a raising chunk aborts the whole line. -/
def tracabPlayersLoop (st : TracabPlayersState) :
    List TracabPlayerChunk → Except DeserializationError TracabPlayersState
  | [] => .ok st
  | c :: cs =>
    match tracabStepChunk st c with
    | .error e => .error e
    | .ok st2 => tracabPlayersLoop st2 cs

/-- Ball-owning-team code resolution of `_frame_from_line` (lines 104-111). -/
def tracabBallOwning (code : String) : Except DeserializationError Ground :=
  if code == "H" then .ok .home
  else if code == "A" then .ok .away
  else .error (.unknownBallOwningTeam code)

/-- Ball-state code resolution of `_frame_from_line` (lines 113-118). -/
def tracabBallState (code : String) : Except DeserializationError BallState :=
  if code == "Alive" then .ok .alive
  else if code == "Dead" then .ok .dead
  else .error (.unknownBallState code)

/-- Method `_frame_from_line` (tracab_dat.py lines 57-132) over a tokenized line,
returning the assembled frame and the updated rosters.  The stored timestamp
is `frame_id / frame_rate - period.start_timestamp` (line 122). -/
def frameFromLine (home away : List Player) (period : Period)
    (line : TracabLine) (frame_rate : ℚ) :
    Except DeserializationError (Frame × List Player × List Player) :=
  match tracabPlayersLoop ⟨home, away, []⟩ line.players with
  | .error e => .error e
  | .ok st =>
    match tracabBallOwning line.ball.owning with
    | .error e => .error e
    | .ok owning =>
      match tracabBallState line.ball.state with
      | .error e => .error e
      | .ok state =>
        .ok ({ frame_id := line.frame_id,
               timestamp :=
                 (line.frame_id : ℚ) / frame_rate - period.start_timestamp,
               ball_coordinates :=
                 some ⟨some line.ball.x, some line.ball.y, some line.ball.z⟩,
               ball_state := some state,
               ball_owning_team := some owning,
               period := period,
               players_data := st.players_data },
             st.home, st.away)

/-- The alive filter of `_iter` checks that the raw line ends with the literal
`Alive;:`; on a tokenized well-formed line that is exactly the ball state
code. -/
def tracabAlive (line : TracabLine) : Bool :=
  line.ball.state == "Alive"

/-- The inner period scan of `_iter` (tracab_dat.py lines 172-180): for every
period whose bounds contain the absolute frame time, the line is yielded when
the running counter is divisible by `sample`, and the counter increments.
Returns the yielded pairs together with the updated counter. -/
def tracabScanPeriods (sample : Nat) (t : ℚ) (line : TracabLine) :
    List Period → Nat → List (Period × TracabLine) × Nat
  | [], n => ([], n)
  | p :: ps, n =>
    if p.start_timestamp ≤ t ∧ t ≤ p.end_timestamp then
      let rest := tracabScanPeriods sample t line ps (n + 1)
      (if n % sample = 0 then (p, line) :: rest.1 else rest.1, rest.2)
    else
      tracabScanPeriods sample t line ps n

/-- Generator `_iter` of `TRACABDatDeserializer.deserialize` (tracab_dat.py lines
159-180), started at counter value `n`.  The counter lives across lines and
periods and advances only inside the period scan. -/
def tracabIterFrom (frame_rate : ℚ) (periods : List Period)
    (only_alive : Bool) (sample : Nat) :
    List TracabLine → Nat → List (Period × TracabLine)
  | [], _ => []
  | line :: lines, n =>
    if only_alive && !tracabAlive line then
      tracabIterFrom frame_rate periods only_alive sample lines n
    else
      let scanned :=
        tracabScanPeriods sample ((line.frame_id : ℚ) / frame_rate) line
          periods n
      scanned.1 ++
        tracabIterFrom frame_rate periods only_alive sample lines scanned.2

/-- Generator `_iter` as called by deserialize: counter starts at 0. -/
def tracabIter (frame_rate : ℚ) (periods : List Period) (only_alive : Bool)
    (sample : Nat) (lines : List TracabLine) : List (Period × TracabLine) :=
  tracabIterFrom frame_rate periods only_alive sample lines 0

/-- The frame loop of `TRACABDatDeserializer.deserialize` (lines 182-190):
frames are assembled in order, the rosters thread through placeholder
synthesis, and after appending the frame at index `n` the loop breaks when
`limit and n >= limit`.  The external coordinate transformer is out of scope
(spec section 1) and modelled as the identity. -/
def tracabCollect (frame_rate : ℚ) (limit : Option Nat) :
    List Player → List Player → List (Period × TracabLine) → Nat →
    Except DeserializationError (List Frame × List Player × List Player)
  | home, away, [], _ => .ok ([], home, away)
  | home, away, (period, line) :: rest, n =>
    match frameFromLine home away period line frame_rate with
    | .error e => .error e
    | .ok (frame, home2, away2) =>
      if limitActive limit n then .ok ([frame], home2, away2)
      else
        match tracabCollect frame_rate limit home2 away2 rest (n + 1) with
        | .error e => .error e
        | .ok (frames, h, a) => .ok (frame :: frames, h, a)

/-- Method `TRACABDatDeserializer.deserialize` restricted to the frame pipeline
(metadata loading, transformer and the orientation vote are external
collaborators).  A `DeserializationError` unwinds the whole call, so an error
result carries no partial dataset. -/
def tracabDeserialize (frame_rate : ℚ) (periods : List Period)
    (home away : List Player) (only_alive : Bool) (sample : Nat)
    (limit : Option Nat) (lines : List TracabLine) :
    Except DeserializationError TrackingDataset :=
  match tracabCollect frame_rate limit home away
      (tracabIter frame_rate periods only_alive sample lines) 0 with
  | .error e => .error e
  | .ok (frames, _, _) => .ok { records := frames }

/-! ## Spec-side sampler (spec section 4.3, stated as written) -/

/-- Spec side: keep the elements whose running index, started at `n`, is
divisible by `k`; the index increments once per element of the list. -/
def enumFilterFrom {α : Type} (k : Nat) : Nat → List α → List α
  | _, [] => []
  | n, x :: xs =>
    if n % k = 0 then x :: enumFilterFrom k (n + 1) xs
    else enumFilterFrom k (n + 1) xs

/-- Spec side, section 4.3: retain every k-th eligible element, counting with
a single running counter that starts at 0 and increments once per eligible
element. -/
def retainEveryKth {α : Type} (k : Nat) (xs : List α) : List α :=
  enumFilterFrom k 0 xs

/-- Spec side: the eligible (period, line) pairs of a TRACAB stream - the
lines passing the alive filter, paired with each period whose bounds contain
their absolute time (the period tagging of spec section 4.2). -/
def tracabEligiblePairs (frame_rate : ℚ) (periods : List Period)
    (only_alive : Bool) (lines : List TracabLine) :
    List (Period × TracabLine) :=
  (lines.filter (fun l => !only_alive || tracabAlive l)).flatMap
    (fun l =>
      (periods.filter
          (fun p =>
            decide (p.start_timestamp ≤ (l.frame_id : ℚ) / frame_rate) &&
              decide ((l.frame_id : ℚ) / frame_rate ≤ p.end_timestamp))).map
        (fun p => (p, l)))

/-! ## Sportec position data reader (`sportec/deserializer.py`) -/

/-- The ball entry of one raw Sportec frame (`_read_section_data`): position,
speed, and the integer possession / status codes. -/
structure SportecBall where
  x : ℚ
  y : ℚ
  z : ℚ
  speed : ℚ
  possession : Int
  state : Int
deriving DecidableEq, Repr

/-- One player entry of a raw Sportec frame, keyed by person id. -/
structure SportecPlayerEntry where
  person_id : String
  x : ℚ
  y : ℚ
  speed : ℚ
deriving DecidableEq, Repr

/-- One entry of the `_read_section_data` output dict: a frame id with its
optional ball entry and its player entries in insertion order. -/
structure SportecRawFrame where
  frame_id : Nat
  ball : Option SportecBall
  players : List SportecPlayerEntry
deriving DecidableEq, Repr

/-- Lookup `player_map[player_id]`.  The map is built from both rosters and in
well-formed data contains every person id of the frame sets, so the default is
never reached on real input. -/
def sportecLookupPlayer (player_map : List (String × Player)) (pid : String) :
    Player :=
  (player_map.lookup pid).getD ⟨pid, .home, 0⟩

/-- The `Frame` literal of the Sportec `_iter` (deserializer.py lines 170-198):
timestamp `frame_id / fps - period.start_timestamp`, possession code 1 is the
home team and anything else the away team, status code 1 is alive. -/
def sportecFrameOf (fps : ℚ) (period : Period)
    (player_map : List (String × Player)) (raw : SportecRawFrame)
    (b : SportecBall) : Frame :=
  { frame_id := raw.frame_id,
    timestamp := (raw.frame_id : ℚ) / fps - period.start_timestamp,
    ball_coordinates := some ⟨some b.x, some b.y, some b.z⟩,
    ball_state := some (if b.state = 1 then .alive else .dead),
    ball_owning_team := some (if b.possession = 1 then .home else .away),
    period := period,
    players_data :=
      raw.players.map
        (fun e =>
          (sportecLookupPlayer player_map e.person_id,
           ⟨some (some e.x, some e.y), some e.speed⟩)) }

/-- The per-period loop of the Sportec `_iter` (lines 157-198): `i` is the
`enumerate` index over the raw frames of the section - it advances on every
raw frame, also on the filtered-out ones, and the sample test `i % sample == 0`
runs only after the has-ball and alive filters pass. -/
def sportecIterPeriod (fps : ℚ) (only_alive : Bool) (sample : Nat)
    (player_map : List (String × Player)) (period : Period) :
    List SportecRawFrame → Nat → List Frame
  | [], _ => []
  | raw :: raws, i =>
    match raw.ball with
    | none =>
      sportecIterPeriod fps only_alive sample player_map period raws (i + 1)
    | some b =>
      if only_alive && b.state != 1 then
        sportecIterPeriod fps only_alive sample player_map period raws (i + 1)
      else if i % sample = 0 then
        sportecFrameOf fps period player_map raw b ::
          sportecIterPeriod fps only_alive sample player_map period raws (i + 1)
      else
        sportecIterPeriod fps only_alive sample player_map period raws (i + 1)

/-- Generator `_iter` of `SportecTrackingDataSerializer.deserialize` (lines 144-198):
sections are read per period, and the index restarts at 0 for every period.
`sections` models `_read_section_data(data_root, period)` per period. -/
def sportecIter (fps : ℚ) (only_alive : Bool) (sample : Nat)
    (player_map : List (String × Player)) :
    List (Period × List SportecRawFrame) → List Frame
  | [] => []
  | (period, raws) :: rest =>
    sportecIterPeriod fps only_alive sample player_map period raws 0 ++
      sportecIter fps only_alive sample player_map rest

/-- The frame loop of the Sportec deserialize (lines 200-214): frames are
appended in order and after appending the frame at index `n` the loop breaks
when `limit and n >= limit`.  The set-once period attacking direction uses the
external `attacking_direction_from_frame` and does not change the list. -/
def sportecCollect (limit : Option Nat) : List Frame → Nat → List Frame
  | [], _ => []
  | f :: fs, n =>
    if limitActive limit n then [f] else f :: sportecCollect limit fs (n + 1)

/-- The local `frames` list that `SportecTrackingDataSerializer.deserialize`
assembles (lines 200-214). -/
def sportecAssembledFrames (fps : ℚ) (only_alive : Bool) (sample : Nat)
    (player_map : List (String × Player)) (limit : Option Nat)
    (sections : List (Period × List SportecRawFrame)) : List Frame :=
  sportecCollect limit (sportecIter fps only_alive sample player_map sections) 0

/-- Method `SportecTrackingDataSerializer.deserialize` (lines 127-238): the assembled
`frames` local (see `sportecAssembledFrames`) is dropped - line 236 builds the
returned dataset with `records=[]`. -/
def sportecDeserialize (fps : ℚ) (only_alive : Bool) (sample : Nat)
    (player_map : List (String × Player)) (limit : Option Nat)
    (sections : List (Period × List SportecRawFrame)) : TrackingDataset :=
  { records := ([] : List Frame) }

/-- Spec side: the raw Sportec records passing the eligibility filters - a
ball entry present and, under `only_alive`, ball status code 1. -/
def sportecEligibleRaws (only_alive : Bool)
    (sections : List (Period × List SportecRawFrame)) : List SportecRawFrame :=
  (sections.map (fun s => s.2)).flatten.filter
    (fun raw =>
      match raw.ball with
      | none => false
      | some b => !only_alive || b.state == 1)

/-! ## PFF reader (`pff.py`) -/

/-- One entry of `homePlayersSmoothed` / `awayPlayersSmoothed`: a jersey
number with optional coordinates. -/
structure PFFPlayerChunk where
  jerseyNum : Nat
  x : Option ℚ
  y : Option ℚ
deriving DecidableEq, Repr

/-- The `ballsSmoothed` object of a raw PFF frame. -/
structure PFFBallSmoothed where
  x : Option ℚ
  y : Option ℚ
  z : Option ℚ
deriving DecidableEq, Repr

/-- The `game_event` object of a raw PFF frame; `home_ball` is the optional
explicit possession flag. -/
structure PFFGameEvent where
  home_ball : Option Bool
deriving DecidableEq, Repr

/-- One line of the bz2 JSON raw data, restricted to the fields the reader
touches.  `ballsSmoothed = none` also covers the falsy empty dict. -/
structure PFFRawFrame where
  period : Option Nat
  frameNum : Nat
  periodGameClockTime : ℚ
  ballsSmoothed : Option PFFBallSmoothed
  homePlayersSmoothed : Option (List PFFPlayerChunk)
  awayPlayersSmoothed : Option (List PFFPlayerChunk)
  game_event : Option PFFGameEvent
deriving DecidableEq, Repr

/-- The player lookup loop of `_get_frame_data` (pff.py lines 126-130 and
141-145): scan the roster dict for a jersey match and break.  When nothing
matches, the loop variable stays bound to the LAST roster entry, so the record
silently resolves to that player; with an empty roster the name is unbound
(`NameError` on first use), modelled as an error - no claim exercises it. -/
def pffResolve (roster : List Player) (jersey : Nat) :
    Except DeserializationError Player :=
  match roster.find? (fun p => p.jersey_no == jersey) with
  | some p => .ok p
  | none =>
    match roster.getLast? with
    | some p => .ok p
    | none => .error .unboundPlayer

/-- The per-side chunk loop of `_get_frame_data` (lines 125-153): each chunk
resolves against the side roster and its data is written into the
`players_data` dict, overwriting an existing key. -/
def pffPlayersLoop (roster : List Player) :
    List PFFPlayerChunk → List (Player × PlayerData) →
    Except DeserializationError (List (Player × PlayerData))
  | [], acc => .ok acc
  | c :: cs, acc =>
    match pffResolve roster c.jerseyNum with
    | .error e => .error e
    | .ok player =>
      pffPlayersLoop roster cs (assocUpsert player ⟨some (c.x, c.y), none⟩ acc)

/-- Method `_get_frame_data` (pff.py lines 83-165): ball coordinates from
`ballsSmoothed` (all-`None` point otherwise), player data from the two
smoothed lists, timestamp the period game clock, period looked up by id in the
periods dict (always present for frames produced by `_iter`). -/
def pffGetFrameData (homeRoster awayRoster : List Player)
    (periods : List (Nat × Period)) (ball_owning_team : Option Ground)
    (frame : PFFRawFrame) (frame_period : Nat) :
    Except DeserializationError Frame :=
  let ball_coordinates : Point3 :=
    match frame.ballsSmoothed with
    | some b => ⟨b.x, b.y, b.z⟩
    | none => ⟨none, none, none⟩
  match (match frame.homePlayersSmoothed with
         | none => Except.ok []
         | some cs => pffPlayersLoop homeRoster cs []) with
  | .error e => .error e
  | .ok pd1 =>
    match (match frame.awayPlayersSmoothed with
           | none => Except.ok pd1
           | some cs => pffPlayersLoop awayRoster cs pd1) with
    | .error e => .error e
    | .ok pd2 =>
      .ok { frame_id := frame.frameNum,
            timestamp := frame.periodGameClockTime,
            ball_coordinates := some ball_coordinates,
            ball_state := none,
            ball_owning_team := ball_owning_team,
            period := (periods.lookup frame_period).getD ⟨frame_period, 0, 0⟩,
            players_data := pd2 }

/-- The period ids of the raw stream in first-occurrence order (the key order
of the `defaultdict` in `__get_periods`). -/
def pffPeriodIds (raws : List PFFRawFrame) : List Nat :=
  raws.foldl
    (fun acc r =>
      match r.period with
      | none => acc
      | some p => if p ∈ acc then acc else acc ++ [p])
    []

/-- Method `__get_periods` (pff.py lines 167-184): bounds are the first and last
`frameNum` of the frames of each period, divided by the frame rate. -/
def pffGetPeriods (raws : List PFFRawFrame) (frame_rate : ℚ) :
    List (Nat × Period) :=
  (pffPeriodIds raws).map
    (fun pid =>
      let group := raws.filter (fun r => r.period == some pid)
      let firstNum : Nat := ((group.head?).map (fun r => r.frameNum)).getD 0
      let lastNum : Nat := ((group.getLast?).map (fun r => r.frameNum)).getD 0
      (pid, ⟨pid, (firstNum : ℚ) / frame_rate, (lastNum : ℚ) / frame_rate⟩))

/-- The possession update of the PFF `_iter` (lines 338-343): a record with a
`game_event` carrying a non-`None` `home_ball` overwrites
`self._ball_owning_team`; every other record leaves it unchanged. -/
def pffUpdateBot (bot : Option Ground) (frame : PFFRawFrame) : Option Ground :=
  match frame.game_event with
  | none => bot
  | some ge =>
    match ge.home_ball with
    | none => bot
    | some b => some (if b then Ground.home else Ground.away)

/-- The explicit possession value a raw record carries, when any. -/
def pffExplicitPossession (frame : PFFRawFrame) : Option Ground :=
  match frame.game_event with
  | none => none
  | some ge =>
    match ge.home_ball with
    | none => none
    | some b => some (if b then Ground.home else Ground.away)

/-- Generator `_iter` of `PFF_TrackingDeserializer.deserialize` (pff.py lines 330-348):
the possession update runs for every raw record, the counter `n` advances only
for records carrying a period, and a yielded record is paired with the
possession value current at its yield. -/
def pffIterFrom (sample : Nat) :
    List PFFRawFrame → Nat → Option Ground →
    List (PFFRawFrame × Nat × Option Ground)
  | [], _, _ => []
  | frame :: raws, n, bot =>
    let bot2 := pffUpdateBot bot frame
    match frame.period with
    | none => pffIterFrom sample raws n bot2
    | some frame_period =>
      if n % sample = 0 then
        (frame, frame_period, bot2) :: pffIterFrom sample raws (n + 1) bot2
      else
        pffIterFrom sample raws (n + 1) bot2

/-- The value `self._ball_owning_team` holds after the generator has run over
the whole raw stream. -/
def pffFinalBot : List PFFRawFrame → Option Ground → Option Ground
  | [], bot => bot
  | frame :: raws, bot => pffFinalBot raws (pffUpdateBot bot frame)

/-- The period split of the PFF frame loop (lines 364-370): periods 1 and 2 go
to the normal buffer, 3 and 4 to the extra-time buffer, any other period id is
assembled but buffered nowhere. -/
def pffPlace (f : Frame) (fp : Nat) (acc : List Frame × List Frame) :
    List Frame × List Frame :=
  if fp = 1 ∨ fp = 2 then (f :: acc.1, acc.2)
  else if fp = 3 ∨ fp = 4 then (acc.1, f :: acc.2)
  else acc

/-- The PFF frame loop (pff.py lines 350-375): assemble every yielded record,
split by period, count with `n_frames` (incremented before the check, so the
loop stops after exactly `limit` frames), and report the value
`self._ball_owning_team` is left with - the possession at the cut when the
loop broke early, `finalBot` when the generator was exhausted. -/
def pffCollect (homeRoster awayRoster : List Player)
    (periods : List (Nat × Period)) (limit : Option Nat)
    (finalBot : Option Ground) :
    List (PFFRawFrame × Nat × Option Ground) → Nat →
    Except DeserializationError ((List Frame × List Frame) × Option Ground)
  | [], _ => .ok (([], []), finalBot)
  | (frame, fp, bot) :: rest, nf =>
    match pffGetFrameData homeRoster awayRoster periods bot frame fp with
    | .error e => .error e
    | .ok f =>
      if limitActive limit (nf + 1) then
        .ok (pffPlace f fp ([], []), bot)
      else
        match pffCollect homeRoster awayRoster periods limit finalBot rest
            (nf + 1) with
        | .error e => .error e
        | .ok (buffers, fb) => .ok (pffPlace f fp buffers, fb)

/-- The `defaultdict(int)` increment of `__check_att_direction`: bump the
count of a direction, keeping first-occurrence order. -/
def tallyAdd (d : AttackingDirection) :
    List (AttackingDirection × Nat) → List (AttackingDirection × Nat)
  | [] => [(d, 1)]
  | (e, c) :: rest =>
    if e = d then (e, c + 1) :: rest else (e, c) :: tallyAdd d rest

/-- Python `max(iterable, key=...)` keeps the current best unless a later
element is strictly greater. -/
def maxByCountGo (best : AttackingDirection × Nat) :
    List (AttackingDirection × Nat) → AttackingDirection
  | [] => best.1
  | (d, c) :: rest =>
    if best.2 < c then maxByCountGo (d, c) rest else maxByCountGo best rest

/-- Python `max(possible_attacking_directions, key=...)`; `max` over an empty dict
raises, modelled as `none`. -/
def maxByCount :
    List (AttackingDirection × Nat) → Option AttackingDirection
  | [] => none
  | x :: rest => some (maxByCountGo x rest)

/-- The index loop of `__check_att_direction` (pff.py lines 218-220):
`et_frames[i]` for every `i < check_frames_counter` with no bound check, so an
out-of-range index is an unguarded `IndexError`.  The per-frame estimate is
the external `attacking_direction_from_frame`, passed as `adf`. -/
def checkAttDirectionGo (adf : Frame → AttackingDirection)
    (et_frames : List Frame) :
    Nat → Nat → List (AttackingDirection × Nat) →
    Except DeserializationError (List (AttackingDirection × Nat))
  | _, 0, acc => .ok acc
  | i, k + 1, acc =>
    match et_frames[i]? with
    | none => .error .indexOutOfRange
    | some f => checkAttDirectionGo adf et_frames (i + 1) k (tallyAdd (adf f) acc)

/-- Method `__check_att_direction` (pff.py lines 212-224). -/
def checkAttDirection (adf : Frame → AttackingDirection)
    (et_frames : List Frame) (check_frames_counter : Nat) :
    Except DeserializationError AttackingDirection :=
  match checkAttDirectionGo adf et_frames 0 check_frames_counter [] with
  | .error e => .error e
  | .ok acc =>
    match maxByCount acc with
    | none => .error .emptyVote
    | some d => .ok d

/-- The extra-time mirror correction (pff.py lines 382-391): negate both
player axes when both are present, negate the ball x and y keeping z when both
are present, and leave everything else alone. -/
def mirrorPlayerData (pd : PlayerData) : PlayerData :=
  match pd.coordinates with
  | some (some x, some y) => { pd with coordinates := some (some (-x), some (-y)) }
  | _ => pd

/-- The mirror correction applied to one extra-time frame. -/
def mirrorFrame (f : Frame) : Frame :=
  { f with
    players_data := f.players_data.map (fun e => (e.1, mirrorPlayerData e.2)),
    ball_coordinates :=
      match f.ball_coordinates with
      | none => none
      | some b =>
        match b.x, b.y with
        | some x, some y => some ⟨some (-x), some (-y), b.z⟩
        | _, _ => some b }

/-- Method `__load_json_raw` (pff.py lines 186-196): with a limit set, reading stops
at `limit / sample_rate = limit * sample` raw lines. -/
def pffLoadRaw (limit : Option Nat) (sample : Nat)
    (raws : List PFFRawFrame) : List PFFRawFrame :=
  match limit with
  | none => raws
  | some l => if 0 < l then raws.take (l * sample) else raws

/-- Method `PFF_TrackingDeserializer.deserialize` (pff.py lines 227-411) from the
point where the metadata is resolved: load the capped raw stream, build the
periods, iterate, split into normal and extra time, re-run the direction check
over a buffered extra-time segment and mirror it on disagreement, then
concatenate in time order.  `bot0` is the value of `self._ball_owning_team`
when the call starts - `none` only for a freshly constructed deserializer,
because `__init__` (line 76) is the only place that resets it.  The result
carries the frames and the field value left behind for a later call. -/
def pffDeserializeS (adf : Frame → AttackingDirection)
    (homeRoster awayRoster : List Player) (frame_rate : ℚ)
    (homeTeamStartLeft : Bool) (sample : Nat) (limit : Option Nat)
    (raws : List PFFRawFrame) (bot0 : Option Ground) :
    Except DeserializationError (TrackingDataset × Option Ground) :=
  let raws2 := pffLoadRaw limit sample raws
  let periods := pffGetPeriods raws2 frame_rate
  let first_dir :=
    if homeTeamStartLeft then AttackingDirection.ltr else AttackingDirection.rtl
  match pffCollect homeRoster awayRoster periods limit
      (pffFinalBot raws2 bot0) (pffIterFrom sample raws2 0 bot0) 0 with
  | .error e => .error e
  | .ok ((frames, et_frames), finalBot) =>
    if et_frames.isEmpty then
      .ok ({ records := frames ++ et_frames }, finalBot)
    else
      match checkAttDirection adf et_frames 25 with
      | .error e => .error e
      | .ok et_dir =>
        let et2 :=
          if first_dir ≠ et_dir then et_frames.map mirrorFrame else et_frames
        .ok ({ records := frames ++ et2 }, finalBot)

/-- Spec side, section 4.4: annotate every record with the most recently
observed explicit possession value, the initial value while none has been
observed - the last-known-value carry-forward as the spec words it. -/
def specPossessionTrace (init : Option Ground) :
    List PFFRawFrame → List (PFFRawFrame × Option Ground)
  | [] => []
  | r :: rs =>
    let b :=
      match pffExplicitPossession r with
      | some g => some g
      | none => init
    (r, b) :: specPossessionTrace b rs

/-! ## Concrete inputs used by counterexamples and witnesses -/

/-- A minimal well-formed TRACAB line: no player chunks, alive ball owned by
the home side, at tick `fid`. -/
def tracabTestLine (fid : Nat) : TracabLine :=
  ⟨fid, [], ⟨0, 0, 0, 0, "H", "Alive"⟩⟩

/-- A TRACAB line whose ball-owning code is the unrecognized `X`.  Its state
code is `Alive`, so the alive filter of `_iter` does not remove it and it
reaches `_frame_from_line`. -/
def tracabBadOwningLine : TracabLine :=
  ⟨15, [], ⟨0, 0, 0, 0, "X", "Alive"⟩⟩

/-- A TRACAB line whose ball-state code is the unrecognized `Limbo`.  Such a
raw line does not end with the literal `Alive;:`, so with `only_alive` set the
filter of `_iter` (tracab_dat.py line 169) drops it before assembly. -/
def tracabBadStateLine : TracabLine :=
  ⟨15, [], ⟨0, 0, 0, 0, "H", "Limbo"⟩⟩

/-- The frame assembled from `tracabTestLine 16` inside the period
`(1, 0, 100)` at frame rate 1. -/
def tracabFrame16 : Frame :=
  ⟨16, 16, some ⟨some 0, some 0, some 0⟩, some .alive, some .home,
    ⟨1, 0, 100⟩, []⟩

/-- The frame `tracabTestLine 15` assembles inside the period `(1, 10, 20)` at
frame rate 1: absolute time 15, stored timestamp 15 - 10 = 5. -/
def tracabTestFrame : Frame :=
  ⟨15, 5, some ⟨some 0, some 0, some 0⟩, some .alive, some .home, ⟨1, 10, 20⟩, []⟩

/-- A placeholder frame used to quantify over impossible outputs. -/
def junkFrame : Frame :=
  ⟨0, 0, none, none, none, ⟨1, 0, 100⟩, []⟩

/-- A raw Sportec record with a dead ball (status 0). -/
def sportecDeadRaw : SportecRawFrame := ⟨200, some ⟨0, 0, 0, 0, 1, 0⟩, []⟩

/-- A raw Sportec record with an alive ball (status 1). -/
def sportecAliveRaw : SportecRawFrame := ⟨201, some ⟨0, 0, 0, 0, 1, 1⟩, []⟩

/-- One Sportec period section holding a dead record then an alive record. -/
def c3Sections : List (Period × List SportecRawFrame) :=
  [(⟨1, 0, 100⟩, [sportecDeadRaw, sportecAliveRaw])]

/-- One Sportec period section holding a single eligible record. -/
def c2Sections : List (Period × List SportecRawFrame) :=
  [(⟨1, 0, 100⟩, [sportecAliveRaw])]

/-- A raw PFF record in period 1 with optional explicit possession. -/
def pffPossessionRec (fid : Nat) (hb : Option Bool) : PFFRawFrame :=
  ⟨some 1, fid, (fid : ℚ), none, none, none, hb.map (fun b => ⟨some b⟩)⟩

/-- Possession sequence `[home, absent, away]` over three records. -/
def c5Raws : List PFFRawFrame :=
  [pffPossessionRec 1 (some true), pffPossessionRec 2 none,
   pffPossessionRec 3 (some false)]

/-- A trivial direction estimator for concrete runs. -/
def c8adf : Frame → AttackingDirection := fun _ => .ltr

/-- First-call archive: one record with explicit home possession. -/
def c8Xr : PFFRawFrame := ⟨some 1, 10, 1, none, none, none, some ⟨some true⟩⟩

/-- A record with no possession information in period 1. -/
def c8Yr : PFFRawFrame := ⟨some 1, 20, 2, none, none, none, none⟩

/-- Second-call archive: one record with no possession information. -/
def c8Y : List PFFRawFrame := [c8Yr]

/-- The frames assembled from `tracabTestLine 5` and `tracabTestLine 6` inside
the period `(1, 0, 100)` at frame rate 1. -/
def c4FrameA : Frame :=
  ⟨5, 5, some ⟨some 0, some 0, some 0⟩, some .alive, some .home, ⟨1, 0, 100⟩, []⟩

def c4FrameB : Frame :=
  ⟨6, 6, some ⟨some 0, some 0, some 0⟩, some .alive, some .home, ⟨1, 0, 100⟩, []⟩

/-- Two eligible pairs fed to the TRACAB frame loop with limit 1. -/
def c4Pairs : List (Period × TracabLine) :=
  [(⟨1, 0, 100⟩, tracabTestLine 5), (⟨1, 0, 100⟩, tracabTestLine 6)]

/-- The frame assembled from `c8Yr` against the empty periods dict. -/
def c4PffFrame : Frame :=
  ⟨20, 2, some ⟨none, none, none⟩, none, none, ⟨1, 0, 0⟩, []⟩

/-- A home roster holding only jersey 9, for the placeholder synthesis
witness. -/
def c6TracabRoster : List Player := [⟨"h9", .home, 9⟩]

/-- The `self._ball_owning_team` value left behind by deserializing `[c8Xr]`
on a fresh object. -/
def c8FirstRunState : Option Ground :=
  match pffDeserializeS c8adf [] [] 10 true 1 none [c8Xr] none with
  | .ok r => r.2
  | .error _ => none

/-- The ball-owning-team column of a PFF deserialize result, empty on error. -/
def pffRecordsBots
    (r : Except DeserializationError (TrackingDataset × Option Ground)) :
    List (Option Ground) :=
  match r with
  | .ok out => out.1.records.map (fun f => f.ball_owning_team)
  | .error _ => []

/-- A PFF archive whose only record sits in extra time (period 3), so the
buffered extra-time segment holds exactly one frame. -/
def c10Raws : List PFFRawFrame := [⟨some 3, 30, 3, none, none, none, none⟩]

/-- The one extra-time frame assembled from `c10Raws` (period bounds 30 / 10 =
3 on both ends). -/
def c10Frame : Frame :=
  ⟨30, 3, some ⟨none, none, none⟩, none, none, ⟨3, 3, 3⟩, []⟩

/-- A home roster with jerseys 9 and 10 only. -/
def c6Roster : List Player := [⟨"h9", .home, 9⟩, ⟨"h10", .home, 10⟩]

/-- A raw PFF record whose only home chunk wears the unseen jersey 7. -/
def c6Rec : PFFRawFrame :=
  ⟨some 1, 5, 1/2, none, some [⟨7, some 1, some 2⟩], none, none⟩

/-! ## Helper lemmas -/

theorem mirrorPlayerData_involutive (pd : PlayerData) :
    mirrorPlayerData (mirrorPlayerData pd) = pd := by
  obtain ⟨c, s⟩ := pd
  rcases c with _ | ⟨x, y⟩
  · rfl
  · rcases x with _ | x <;> rcases y with _ | y <;> simp [mirrorPlayerData]

theorem mirrorPlayers_involutive (l : List (Player × PlayerData)) :
    ((l.map (fun e => (e.1, mirrorPlayerData e.2))).map
      (fun e => (e.1, mirrorPlayerData e.2))) = l := by
  induction l with
  | nil => rfl
  | cons e rest ih =>
    obtain ⟨p, d⟩ := e
    simp [ih, mirrorPlayerData_involutive]

theorem pffUpdateBot_eq (bot : Option Ground) (r : PFFRawFrame) :
    pffUpdateBot bot r =
      match pffExplicitPossession r with
      | some g => some g
      | none => bot := by
  obtain ⟨p, fn, t, bs, hp, ap, ge⟩ := r
  rcases ge with _ | ge
  · rfl
  · rcases ge with ⟨hb⟩
    rcases hb with _ | b <;> rfl

/-! ## C9 -/

/-- C9: the extra-time mirror correction is self-inverse - applying it twice
to any frame returns the original - and one application leaves the ball z
coordinate, the player identities and speeds, and every non-coordinate frame
field unchanged. -/
theorem pff_extra_time_mirror_involutive (f : Frame) :
    mirrorFrame (mirrorFrame f) = f ∧
    ((mirrorFrame f).ball_coordinates.map (fun b => b.z)) =
      f.ball_coordinates.map (fun b => b.z) ∧
    (mirrorFrame f).frame_id = f.frame_id ∧
    (mirrorFrame f).timestamp = f.timestamp ∧
    (mirrorFrame f).ball_state = f.ball_state ∧
    (mirrorFrame f).ball_owning_team = f.ball_owning_team ∧
    (mirrorFrame f).period = f.period ∧
    (mirrorFrame f).players_data.map (fun e => e.1) =
      f.players_data.map (fun e => e.1) ∧
    (mirrorFrame f).players_data.map (fun e => e.2.speed) =
      f.players_data.map (fun e => e.2.speed) := by
  obtain ⟨fid, ts, bc, bs, bot, per, pd⟩ := f
  refine ⟨?_, ?_, rfl, rfl, rfl, rfl, rfl, ?_, ?_⟩
  · unfold mirrorFrame
    simp only [mirrorPlayers_involutive]
    rcases bc with _ | ⟨x, y, z⟩
    · rfl
    · rcases x with _ | x <;> rcases y with _ | y <;> simp
  · unfold mirrorFrame
    rcases bc with _ | ⟨x, y, z⟩
    · rfl
    · rcases x with _ | x <;> rcases y with _ | y <;> simp
  · unfold mirrorFrame
    simp [List.map_map, Function.comp]
  · unfold mirrorFrame
    simp only [List.map_map]
    apply List.map_congr_left
    intro e _
    obtain ⟨p, d⟩ := e
    obtain ⟨c, s⟩ := d
    rcases c with _ | ⟨x, y⟩
    · rfl
    · rcases x with _ | x <;> rcases y with _ | y <;> rfl

/-! ## C5 -/

/-- C5: within one deserialize invocation the PFF reader carries the ball
owning team forward - each yielded record is paired with the most recently
observed explicit possession value (`specPossessionTrace`, the spec wording) -
and on the concrete possession sequence `[home, absent, away]` the assembled
`ball_owning_team` column is `[home, home, away]`. -/
theorem pff_ball_owning_carry_forward :
    (∀ (init : Option Ground) (raws : List PFFRawFrame) (n : Nat),
      pffIterFrom 1 raws n init =
        (specPossessionTrace init raws).filterMap
          (fun rb =>
            match rb.1.period with
            | some p => some (rb.1, p, rb.2)
            | none => none)) ∧
    pffRecordsBots (pffDeserializeS c8adf [] [] 10 true 1 none c5Raws none) =
      [some Ground.home, some Ground.home, some Ground.away] := by
  constructor
  · intro init raws
    induction raws generalizing init with
    | nil => intro n; rfl
    | cons r rs ih =>
      intro n
      have hupd : pffUpdateBot init r =
          (match pffExplicitPossession r with
           | some g => some g
           | none => init) := pffUpdateBot_eq init r
      simp only [pffIterFrom, specPossessionTrace, List.filterMap_cons]
      rcases hper : r.period with _ | p
      · simp only [hper, ih, hupd]
      · simp [hper, Nat.mod_one, ih, hupd]
  · norm_num [pffDeserializeS, pffLoadRaw, pffGetPeriods, pffPeriodIds,
      pffFinalBot, pffUpdateBot, pffIterFrom, pffCollect, pffGetFrameData,
      pffPlace, limitActive, pffRecordsBots, c5Raws, pffPossessionRec,
      List.lookup, c8adf]

/-! ## C10 -/

theorem checkAttDirectionGo_oob (adf : Frame → AttackingDirection)
    (et : List Frame) :
    ∀ (k i : Nat) (acc : List (AttackingDirection × Nat)),
      1 ≤ k → et.length < i + k →
      checkAttDirectionGo adf et i k acc = .error .indexOutOfRange := by
  intro k
  induction k with
  | zero => intro i acc h; omega
  | succ k ih =>
    intro i acc _ hlen
    cases hget : et[i]? with
    | none => simp [checkAttDirectionGo, hget]
    | some f =>
      have hi : i < et.length := (List.getElem?_eq_some.mp hget).1
      rcases Nat.eq_zero_or_pos k with hk | hk
      · subst hk; omega
      · have := ih (i + 1) (tallyAdd (adf f) acc) hk (by omega)
        simpa [checkAttDirectionGo, hget] using this

/-- C10: when the buffered extra-time segment holds at least one but fewer
than 25 frames, the unguarded 25-frame window of `__check_att_direction`
indexes out of range, and the whole PFF deserialize call fails with that
error instead of a verdict. -/
theorem pff_short_extra_time_buffer_aborts
    (adf : Frame → AttackingDirection) (hR aR : List Player) (fr : ℚ)
    (flag : Bool) (sample : Nat) (limit : Option Nat)
    (raws : List PFFRawFrame) (bot0 : Option Ground)
    (frames ets : List Frame) (fb : Option Ground)
    (hcollect : pffCollect hR aR (pffGetPeriods (pffLoadRaw limit sample raws) fr)
        limit (pffFinalBot (pffLoadRaw limit sample raws) bot0)
        (pffIterFrom sample (pffLoadRaw limit sample raws) 0 bot0) 0 =
        .ok ((frames, ets), fb))
    (h1 : 1 ≤ ets.length) (h25 : ets.length < 25) :
    checkAttDirection adf ets 25 = .error .indexOutOfRange ∧
    pffDeserializeS adf hR aR fr flag sample limit raws bot0 =
      .error .indexOutOfRange := by
  have hchk : checkAttDirection adf ets 25 = .error .indexOutOfRange := by
    unfold checkAttDirection
    rw [checkAttDirectionGo_oob adf ets 25 0 [] (by omega) (by omega)]
  refine ⟨hchk, ?_⟩
  have hne : ets.isEmpty = false := by
    cases ets with
    | nil => simp at h1
    | cons x xs => rfl
  simp only [pffDeserializeS]
  rw [hcollect]
  simp only [hne, Bool.false_eq_true, if_false, hchk]

/-- Witness for C10 at the concrete one-frame extra-time archive `c10Raws`. -/
theorem pff_short_extra_time_buffer_aborts_witness :
    checkAttDirection c8adf [c10Frame] 25 = .error .indexOutOfRange ∧
    pffDeserializeS c8adf [] [] 10 true 1 none c10Raws none =
      .error .indexOutOfRange :=
  pff_short_extra_time_buffer_aborts c8adf [] [] 10 true 1 none c10Raws none
    [] [c10Frame] none
    (by norm_num [pffCollect, pffGetPeriods, pffPeriodIds, pffLoadRaw,
      pffFinalBot, pffUpdateBot, pffIterFrom, pffGetFrameData, pffPlace,
      limitActive, List.lookup, c10Raws, c10Frame])
    (by decide) (by decide)

/-! ## C3 -/

theorem enumFilterFrom_append {α : Type} (k : Nat) (xs ys : List α) :
    ∀ n, enumFilterFrom k n (xs ++ ys) =
      enumFilterFrom k n xs ++ enumFilterFrom k (n + xs.length) ys := by
  induction xs with
  | nil => intro n; simp [enumFilterFrom]
  | cons x xs ih =>
    intro n
    have harith : n + (xs.length + 1) = n + 1 + xs.length := by omega
    simp only [List.cons_append, enumFilterFrom, List.length_cons, harith,
      List.append_eq]
    by_cases h : n % k = 0
    · rw [if_pos h, if_pos h, ih (n + 1)]
      rfl
    · rw [if_neg h, if_neg h, ih (n + 1)]

theorem tracabScanPeriods_eq (sample : Nat) (t : ℚ) (line : TracabLine) :
    ∀ (ps : List Period) (n : Nat),
      tracabScanPeriods sample t line ps n =
        (enumFilterFrom sample n
          ((ps.filter
              (fun p =>
                decide (p.start_timestamp ≤ t) &&
                  decide (t ≤ p.end_timestamp))).map (fun p => (p, line))),
         n + (ps.filter
              (fun p =>
                decide (p.start_timestamp ≤ t) &&
                  decide (t ≤ p.end_timestamp))).length) := by
  intro ps
  induction ps with
  | nil => intro n; rfl
  | cons p ps ih =>
    intro n
    by_cases h : p.start_timestamp ≤ t ∧ t ≤ p.end_timestamp
    · have hb : (decide (p.start_timestamp ≤ t) &&
          decide (t ≤ p.end_timestamp)) = true := by
        simp [h.1, h.2]
      simp only [tracabScanPeriods, if_pos h, ih (n + 1), List.filter_cons, hb,
        if_pos, List.map_cons, enumFilterFrom, List.length_cons]
      simp only [Prod.mk.injEq]
      exact ⟨trivial, by omega⟩
    · have hb : (decide (p.start_timestamp ≤ t) &&
          decide (t ≤ p.end_timestamp)) = false := by
        rcases not_and_or.mp h with h1 | h1 <;> simp [h1]
      simp only [tracabScanPeriods, if_neg h, ih n, List.filter_cons, hb]
      simp

theorem tracabIterFrom_eq (frame_rate : ℚ) (periods : List Period)
    (only_alive : Bool) (sample : Nat) :
    ∀ (lines : List TracabLine) (n : Nat),
      tracabIterFrom frame_rate periods only_alive sample lines n =
        enumFilterFrom sample n
          (tracabEligiblePairs frame_rate periods only_alive lines) := by
  intro lines
  induction lines with
  | nil => intro n; rfl
  | cons line ls ih =>
    intro n
    by_cases hal : (only_alive && !tracabAlive line) = true
    · have hsplit : only_alive = true ∧ tracabAlive line = false := by
        simpa using hal
      obtain ⟨honly, halive⟩ := hsplit
      have helig : tracabEligiblePairs frame_rate periods only_alive
          (line :: ls) =
          tracabEligiblePairs frame_rate periods only_alive ls := by
        unfold tracabEligiblePairs
        simp [List.filter_cons, honly, halive]
      simp only [tracabIterFrom]
      rw [if_pos hal, ih n, helig]
    · have hpred : (!only_alive || tracabAlive line) = true := by
        cases honly : only_alive <;> cases hA : tracabAlive line <;>
          simp_all
      have helig : tracabEligiblePairs frame_rate periods only_alive
          (line :: ls) =
          ((periods.filter
              (fun p =>
                decide (p.start_timestamp ≤ (line.frame_id : ℚ) / frame_rate) &&
                  decide ((line.frame_id : ℚ) / frame_rate ≤
                    p.end_timestamp))).map (fun p => (p, line))) ++
            tracabEligiblePairs frame_rate periods only_alive ls := by
        unfold tracabEligiblePairs
        simp [List.filter_cons, hpred]
      simp only [tracabIterFrom]
      rw [if_neg hal, tracabScanPeriods_eq]
      simp only [ih, helig, enumFilterFrom_append, List.length_map]

/-- C3 (amended): the TRACAB sampler is faithful to the spec - one running
counter spans the whole stream, never resets at period boundaries, advances
only for records that passed the alive filter and the period tagging, and
exactly the pairs whose counter value is divisible by `sample = 1/sample_rate`
are retained (`retainEveryKth`, the spec wording).  The Sportec reader
violates this, see its counterexample. -/
theorem tracab_sampler_every_kth_eligible (frame_rate : ℚ)
    (periods : List Period) (only_alive : Bool) (sample : Nat)
    (lines : List TracabLine) :
    tracabIter frame_rate periods only_alive sample lines =
      retainEveryKth sample
        (tracabEligiblePairs frame_rate periods only_alive lines) :=
  tracabIterFrom_eq frame_rate periods only_alive sample lines 0

/-- C3 counterexample: with `sample_rate = 0.5` (`sample = 2`) the Sportec
reader keeps no record of a section holding one dead then one alive record,
while retaining every 2nd eligible record with a counter that only counts
eligible records would keep the alive one: the Sportec counter is the raw
per-period index and advances on the filtered-out dead record. -/
theorem sportec_sampler_counts_filtered_records :
    (sportecIter 25 true 2 [] c3Sections).length = 0 ∧
    (retainEveryKth 2 (sportecEligibleRaws true c3Sections)).length = 1 := by
  constructor
  · norm_num [sportecIter, sportecIterPeriod, c3Sections, sportecDeadRaw,
      sportecAliveRaw]
  · norm_num [retainEveryKth, enumFilterFrom, sportecEligibleRaws, c3Sections,
      sportecDeadRaw, sportecAliveRaw]

/-! ## C1 -/

theorem mem_of_mem_enumFilterFrom {α : Type} {k : Nat} {x : α} :
    ∀ {n : Nat} {xs : List α}, x ∈ enumFilterFrom k n xs → x ∈ xs := by
  intro n xs
  induction xs generalizing n with
  | nil => intro h; simp [enumFilterFrom] at h
  | cons y ys ih =>
    intro h
    simp only [enumFilterFrom] at h
    by_cases hk : n % k = 0
    · rw [if_pos hk] at h
      rcases List.mem_cons.mp h with h | h
      · exact h ▸ List.mem_cons_self y ys
      · exact List.mem_cons_of_mem y (ih h)
    · rw [if_neg hk] at h
      exact List.mem_cons_of_mem y (ih h)

theorem tracabEligiblePairs_bounds {frame_rate : ℚ} {periods : List Period}
    {only_alive : Bool} {lines : List TracabLine} {q : Period}
    {l : TracabLine}
    (h : (q, l) ∈ tracabEligiblePairs frame_rate periods only_alive lines) :
    q.start_timestamp ≤ (l.frame_id : ℚ) / frame_rate ∧
      (l.frame_id : ℚ) / frame_rate ≤ q.end_timestamp := by
  unfold tracabEligiblePairs at h
  rcases List.mem_flatMap.mp h with ⟨l2, hl2, hmem⟩
  rcases List.mem_map.mp hmem with ⟨p, hp, heq⟩
  obtain ⟨hq, hl⟩ := Prod.mk.injEq .. ▸ heq
  subst hq
  subst hl
  have hfil := (List.mem_filter.mp hp).2
  simpa using hfil

theorem frameFromLine_ok_fields {home away : List Player} {period : Period}
    {line : TracabLine} {frame_rate : ℚ} {f : Frame} {h2 a2 : List Player}
    (h : frameFromLine home away period line frame_rate = .ok (f, h2, a2)) :
    f.period = period ∧
      f.timestamp = (line.frame_id : ℚ) / frame_rate - period.start_timestamp := by
  unfold frameFromLine at h
  cases hpl : tracabPlayersLoop ⟨home, away, []⟩ line.players with
  | error e => rw [hpl] at h; simp at h
  | ok st =>
    rw [hpl] at h
    cases how : tracabBallOwning line.ball.owning with
    | error e => rw [how] at h; simp at h
    | ok ow =>
      rw [how] at h
      cases hst : tracabBallState line.ball.state with
      | error e => rw [hst] at h; simp at h
      | ok s =>
        rw [hst] at h
        simp only [Except.ok.injEq, Prod.mk.injEq] at h
        obtain ⟨hf, -, -⟩ := h
        subst hf
        exact ⟨rfl, rfl⟩

theorem tracabCollect_mem {frame_rate : ℚ} {limit : Option Nat} :
    ∀ {home away : List Player} {pairs : List (Period × TracabLine)} {n : Nat}
      {frames : List Frame} {h a : List Player},
      tracabCollect frame_rate limit home away pairs n = .ok (frames, h, a) →
      ∀ f ∈ frames, ∃ q l h0 a0 h1 a1, (q, l) ∈ pairs ∧
        frameFromLine h0 a0 q l frame_rate = .ok (f, h1, a1) := by
  intro home away pairs
  induction pairs generalizing home away with
  | nil =>
    intro n frames h a hc f hf
    simp only [tracabCollect, Except.ok.injEq, Prod.mk.injEq] at hc
    obtain ⟨hfr, -, -⟩ := hc
    subst hfr
    simp at hf
  | cons pr rest ih =>
    intro n frames h a hc f hf
    obtain ⟨q, l⟩ := pr
    cases hfl : frameFromLine home away q l frame_rate with
    | error e => simp [tracabCollect, hfl] at hc
    | ok out =>
      obtain ⟨f1, home2, away2⟩ := out
      simp only [tracabCollect, hfl] at hc
      by_cases hlim : limitActive limit n = true
      · rw [if_pos hlim] at hc
        simp only [Except.ok.injEq, Prod.mk.injEq] at hc
        obtain ⟨hfr, -, -⟩ := hc
        subst hfr
        rcases List.mem_singleton.mp hf with rfl
        exact ⟨q, l, home, away, home2, away2,
          List.mem_cons_self _ _, hfl⟩
      · rw [if_neg hlim] at hc
        cases hrec : tracabCollect frame_rate limit home2 away2 rest (n + 1) with
        | error e => rw [hrec] at hc; simp at hc
        | ok out2 =>
          obtain ⟨fs, hh, aa⟩ := out2
          rw [hrec] at hc
          simp only [Except.ok.injEq, Prod.mk.injEq] at hc
          obtain ⟨hfr, -, -⟩ := hc
          subst hfr
          rcases List.mem_cons.mp hf with rfl | hf2
          · exact ⟨q, l, home, away, home2, away2,
              List.mem_cons_self _ _, hfl⟩
          · obtain ⟨q3, l3, h0, a0, h3, a3, hmem, hfl3⟩ := ih hrec f hf2
            exact ⟨q3, l3, h0, a0, h3, a3,
              List.mem_cons_of_mem _ hmem, hfl3⟩

/-- C1 (amended): every frame assembled by the TRACAB reader has its absolute
time `frame_id / frame_rate` inside the bounds of the period it references,
and its stored timestamp is that time relative to the period start, so
`0 ≤ timestamp ≤ end_timestamp - start_timestamp`.  The claim as stated (the
stored timestamp between the absolute bounds) fails, see the
counterexample. -/
theorem tracab_frame_time_within_period_window
    (frame_rate : ℚ) (periods : List Period) (home away : List Player)
    (only_alive : Bool) (sample : Nat) (limit : Option Nat)
    (lines : List TracabLine) (ds : TrackingDataset)
    (hok : tracabDeserialize frame_rate periods home away only_alive sample
      limit lines = .ok ds)
    (f : Frame) (hf : f ∈ ds.records) :
    0 ≤ f.timestamp ∧
      f.timestamp ≤ f.period.end_timestamp - f.period.start_timestamp := by
  unfold tracabDeserialize at hok
  cases hc : tracabCollect frame_rate limit home away
      (tracabIter frame_rate periods only_alive sample lines) 0 with
  | error e => rw [hc] at hok; simp at hok
  | ok out =>
    obtain ⟨frames, hh, aa⟩ := out
    rw [hc] at hok
    simp only [Except.ok.injEq] at hok
    subst hok
    obtain ⟨q, l, h0, a0, h1, a1, hmem, hfl⟩ := tracabCollect_mem hc f hf
    have hmem2 : (q, l) ∈ tracabEligiblePairs frame_rate periods only_alive
        lines := by
      rw [tracabIter, tracabIterFrom_eq] at hmem
      exact mem_of_mem_enumFilterFrom hmem
    obtain ⟨hb1, hb2⟩ := tracabEligiblePairs_bounds hmem2
    obtain ⟨hper, hts⟩ := frameFromLine_ok_fields hfl
    rw [hts, hper]
    constructor
    · linarith
    · linarith

/-- Witness for the amended C1 at the concrete line with tick 15 inside the
period `(10, 20)` at frame rate 1. -/
theorem tracab_frame_time_within_period_window_witness :
    0 ≤ tracabTestFrame.timestamp ∧
      tracabTestFrame.timestamp ≤
        tracabTestFrame.period.end_timestamp -
          tracabTestFrame.period.start_timestamp :=
  tracab_frame_time_within_period_window 1 [⟨1, 10, 20⟩] [] [] true 1 none
    [tracabTestLine 15] ⟨[tracabTestFrame]⟩
    (by norm_num [tracabDeserialize, tracabCollect, tracabIter,
      tracabIterFrom, tracabScanPeriods, tracabAlive, frameFromLine,
      tracabPlayersLoop, tracabBallOwning, tracabBallState, limitActive,
      tracabTestLine, tracabTestFrame])
    tracabTestFrame (by simp)

/-- C1 counterexample: the frame assembled from tick 15 inside the period with
absolute bounds `(10, 20)` stores timestamp 5, which does not lie between the
period bounds - timestamps are period-relative. -/
theorem tracab_timestamp_not_between_period_bounds :
    (recordsOf (tracabDeserialize 1 [⟨1, 10, 20⟩] [] [] true 1 none
        [tracabTestLine 15])).map
      (fun f => decide (f.period.start_timestamp ≤ f.timestamp ∧
        f.timestamp ≤ f.period.end_timestamp)) = [false] := by
  norm_num [recordsOf, tracabDeserialize, tracabCollect, tracabIter,
    tracabIterFrom, tracabScanPeriods, tracabAlive, frameFromLine,
    tracabPlayersLoop, tracabBallOwning, tracabBallState, limitActive,
    tracabTestLine]

/-! ## C2 -/

/-- C2 (code bug): with `sample_rate = 1.0` and no limit one raw record of
`c2Sections` passes every eligibility filter and one frame is assembled, but
the dataset the Sportec deserialize returns is built with `records=[]`
(deserializer.py line 236), so its record count is 0, not 1. -/
theorem sportec_deserialize_drops_assembled_frames :
    (sportecEligibleRaws true c2Sections).length = 1 ∧
    (sportecAssembledFrames 25 true 1 [] none c2Sections).length = 1 ∧
    (sportecDeserialize 25 true 1 [] none c2Sections).records.length = 0 := by
  refine ⟨?_, ?_, rfl⟩
  · norm_num [sportecEligibleRaws, c2Sections, sportecAliveRaw]
  · norm_num [sportecAssembledFrames, sportecCollect, sportecIter,
      sportecIterPeriod, sportecFrameOf, limitActive, c2Sections,
      sportecAliveRaw]

/-! ## C4 -/

theorem tracabCollect_length_le (frame_rate : ℚ) (L : Nat) (hL : 1 ≤ L) :
    ∀ (pairs : List (Period × TracabLine)) (home away : List Player) (n : Nat)
      (frames : List Frame) (h a : List Player), n ≤ L →
      tracabCollect frame_rate (some L) home away pairs n =
        .ok (frames, h, a) →
      frames.length ≤ L + 1 - n := by
  intro pairs
  induction pairs with
  | nil =>
    intro home away n frames h a hn hc
    simp only [tracabCollect, Except.ok.injEq, Prod.mk.injEq] at hc
    obtain ⟨hfr, -, -⟩ := hc
    subst hfr
    simp
  | cons pr rest ih =>
    intro home away n frames h a hn hc
    obtain ⟨q, l⟩ := pr
    cases hfl : frameFromLine home away q l frame_rate with
    | error e => simp [tracabCollect, hfl] at hc
    | ok out =>
      obtain ⟨f1, home2, away2⟩ := out
      simp only [tracabCollect, hfl] at hc
      by_cases hlim : limitActive (some L) n = true
      · rw [if_pos hlim] at hc
        simp only [Except.ok.injEq, Prod.mk.injEq] at hc
        obtain ⟨hfr, -, -⟩ := hc
        subst hfr
        simp only [List.length_singleton]
        omega
      · rw [if_neg hlim] at hc
        have hnL : n < L := by
          by_contra hcon
          push_neg at hcon
          apply hlim
          simp [limitActive]
          omega
        cases hrec : tracabCollect frame_rate (some L) home2 away2 rest
            (n + 1) with
        | error e => rw [hrec] at hc; simp at hc
        | ok out2 =>
          obtain ⟨fs, hh, aa⟩ := out2
          rw [hrec] at hc
          simp only [Except.ok.injEq, Prod.mk.injEq] at hc
          obtain ⟨hfr, -, -⟩ := hc
          subst hfr
          have := ih home2 away2 (n + 1) fs hh aa (by omega) hrec
          simp only [List.length_cons]
          omega

theorem sportecCollect_length_le (L : Nat) (hL : 1 ≤ L) :
    ∀ (fs : List Frame) (n : Nat), n ≤ L →
      (sportecCollect (some L) fs n).length ≤ L + 1 - n := by
  intro fs
  induction fs with
  | nil => intro n hn; simp [sportecCollect]
  | cons f fs ih =>
    intro n hn
    by_cases hlim : limitActive (some L) n = true
    · simp only [sportecCollect]
      rw [if_pos hlim]
      simp only [List.length_singleton]
      omega
    · have hnL : n < L := by
        by_contra hcon
        push_neg at hcon
        apply hlim
        simp [limitActive]
        omega
      simp only [sportecCollect]
      rw [if_neg hlim]
      have := ih (n + 1) (by omega)
      simp only [List.length_cons]
      omega

theorem pffPlace_length (f : Frame) (fp : Nat) (acc : List Frame × List Frame) :
    (pffPlace f fp acc).1.length + (pffPlace f fp acc).2.length ≤
      acc.1.length + acc.2.length + 1 := by
  unfold pffPlace
  by_cases h1 : fp = 1 ∨ fp = 2
  · rw [if_pos h1]
    simp only [List.length_cons]
    omega
  · rw [if_neg h1]
    by_cases h2 : fp = 3 ∨ fp = 4
    · rw [if_pos h2]
      simp only [List.length_cons]
      omega
    · rw [if_neg h2]
      omega

theorem pffCollect_length_le (homeRoster awayRoster : List Player)
    (periods : List (Nat × Period)) (L : Nat) (finalBot : Option Ground)
    (hL : 1 ≤ L) :
    ∀ (ylds : List (PFFRawFrame × Nat × Option Ground)) (nf : Nat)
      (buffers : List Frame × List Frame) (fb : Option Ground), nf < L →
      pffCollect homeRoster awayRoster periods (some L) finalBot ylds nf =
        .ok (buffers, fb) →
      buffers.1.length + buffers.2.length ≤ L - nf := by
  intro ylds
  induction ylds with
  | nil =>
    intro nf buffers fb hn hc
    simp only [pffCollect, Except.ok.injEq, Prod.mk.injEq] at hc
    obtain ⟨hb, -⟩ := hc
    subst hb
    simp
  | cons y rest ih =>
    intro nf buffers fb hn hc
    obtain ⟨frame, fp, bot⟩ := y
    cases hgf : pffGetFrameData homeRoster awayRoster periods bot frame fp with
    | error e => simp [pffCollect, hgf] at hc
    | ok f =>
      simp only [pffCollect, hgf] at hc
      by_cases hlim : limitActive (some L) (nf + 1) = true
      · rw [if_pos hlim] at hc
        simp only [Except.ok.injEq, Prod.mk.injEq] at hc
        obtain ⟨hb, -⟩ := hc
        subst hb
        have := pffPlace_length f fp ([], [])
        simp at this
        omega
      · rw [if_neg hlim] at hc
        have hnf1 : nf + 1 < L := by
          by_contra hcon
          push_neg at hcon
          apply hlim
          simp [limitActive]
          omega
        cases hrec : pffCollect homeRoster awayRoster periods (some L)
            finalBot rest (nf + 1) with
        | error e => rw [hrec] at hc; simp at hc
        | ok out2 =>
          obtain ⟨buf2, fb2⟩ := out2
          rw [hrec] at hc
          simp only [Except.ok.injEq, Prod.mk.injEq] at hc
          obtain ⟨hb, -⟩ := hc
          subst hb
          have h2 := ih (nf + 1) buf2 fb2 hnf1 hrec
          have h3 := pffPlace_length f fp buf2
          omega

/-- C4 (amended): with a positive limit L the PFF frame loop buffers at most L
frames (its counter increments before the check), while the TRACAB and Sportec
loops check the limit only after appending, so their buffers can reach L + 1
frames but never more.  The claim as stated - at most L for every reader -
fails on TRACAB, see the counterexample. -/
theorem retained_frames_bounded_by_limit (L : Nat) (hL : 1 ≤ L) :
    (∀ (frame_rate : ℚ) (home away : List Player)
        (pairs : List (Period × TracabLine)) (frames : List Frame)
        (h a : List Player),
      tracabCollect frame_rate (some L) home away pairs 0 =
        .ok (frames, h, a) →
      frames.length ≤ L + 1) ∧
    (∀ fs : List Frame, (sportecCollect (some L) fs 0).length ≤ L + 1) ∧
    (∀ (homeRoster awayRoster : List Player) (periods : List (Nat × Period))
        (finalBot : Option Ground)
        (ylds : List (PFFRawFrame × Nat × Option Ground))
        (buffers : List Frame × List Frame) (fb : Option Ground),
      pffCollect homeRoster awayRoster periods (some L) finalBot ylds 0 =
        .ok (buffers, fb) →
      buffers.1.length + buffers.2.length ≤ L) := by
  refine ⟨?_, ?_, ?_⟩
  · intro fr home away pairs frames h a hc
    have := tracabCollect_length_le fr L hL pairs home away 0 frames h a
      (by omega) hc
    omega
  · intro fs
    have := sportecCollect_length_le L hL fs 0 (by omega)
    omega
  · intro hR aR periods finalBot ylds buffers fb hc
    have := pffCollect_length_le hR aR periods L finalBot hL ylds 0 buffers fb
      (by omega) hc
    omega

/-- Witness for the amended C4 at limit 1: a two-pair TRACAB run reaching the
L + 1 bound, a two-frame Sportec buffer, and a one-yield PFF run reaching
exactly L. -/
theorem retained_frames_bounded_by_limit_witness :
    ([c4FrameA, c4FrameB] : List Frame).length ≤ 1 + 1 ∧
    (sportecCollect (some 1) [c4FrameA, c4FrameB] 0).length ≤ 1 + 1 ∧
    (([c4PffFrame], []) : List Frame × List Frame).1.length +
      (([c4PffFrame], []) : List Frame × List Frame).2.length ≤ 1 :=
  ⟨(retained_frames_bounded_by_limit 1 (by decide)).1 1 [] []
      c4Pairs [c4FrameA, c4FrameB] [] []
      (by norm_num [tracabCollect, frameFromLine, tracabPlayersLoop,
        tracabBallOwning, tracabBallState, limitActive, c4Pairs,
        tracabTestLine, c4FrameA, c4FrameB]),
   (retained_frames_bounded_by_limit 1 (by decide)).2.1 [c4FrameA, c4FrameB],
   (retained_frames_bounded_by_limit 1 (by decide)).2.2 [] [] [] none
      [(c8Yr, 1, none)] ([c4PffFrame], []) none
      (by norm_num [pffCollect, pffGetFrameData, pffPlace, limitActive,
        c8Yr, c4PffFrame, List.lookup])⟩

/-- C4 counterexample: with limit 1 the TRACAB reader buffers two frames, so
the output is not bounded by the limit. -/
theorem tracab_limit_one_gives_more_than_limit :
    ¬((recordsOf (tracabDeserialize 1 [⟨1, 0, 100⟩] [] [] true 1 (some 1)
        [tracabTestLine 5, tracabTestLine 6, tracabTestLine 7])).length ≤ 1) := by
  norm_num [recordsOf, tracabDeserialize, tracabCollect, tracabIter,
    tracabIterFrom, tracabScanPeriods, tracabAlive, frameFromLine,
    tracabPlayersLoop, tracabBallOwning, tracabBallState, limitActive,
    tracabTestLine]

/-! ## C6 -/

theorem find?_append_of_none {α : Type} (p : α → Bool) (l1 l2 : List α)
    (h : l1.find? p = none) : (l1 ++ l2).find? p = l2.find? p := by
  induction l1 with
  | nil => rfl
  | cons x xs ih =>
    cases hp : p x with
    | true => simp [List.find?_cons, hp] at h
    | false =>
      simp only [List.find?_cons, hp] at h
      simp only [List.cons_append, List.find?_cons, hp]
      exact ih h

/-- C6 (amended, TRACAB): a jersey number with no roster match makes the
TRACAB reader synthesize exactly one placeholder player - identity
`{ground}_{jersey}` - appended at the end of that roster, and resolving the
same jersey against the extended roster returns that same player with the
roster unchanged.  The PFF reader does not satisfy the claim, see the
counterexample. -/
theorem tracab_unseen_jersey_single_placeholder
    (g : Ground) (roster : List Player) (j : Nat)
    (h : get_player_by_jersey_number roster j = none) :
    (resolveTracabPlayer g roster j).2 =
      roster ++ [(resolveTracabPlayer g roster j).1] ∧
    (resolveTracabPlayer g roster j).1.player_id =
      groundStr g ++ "_" ++ toString j ∧
    (resolveTracabPlayer g roster j).1.ground = g ∧
    (resolveTracabPlayer g roster j).1.jersey_no = j ∧
    (resolveTracabPlayer g roster j).1 ∉ roster ∧
    resolveTracabPlayer g (resolveTracabPlayer g roster j).2 j =
      ((resolveTracabPlayer g roster j).1, (resolveTracabPlayer g roster j).2) := by
  have hres : resolveTracabPlayer g roster j =
      (⟨groundStr g ++ "_" ++ toString j, g, j⟩,
        roster ++ [⟨groundStr g ++ "_" ++ toString j, g, j⟩]) := by
    unfold resolveTracabPlayer
    rw [h]
  rw [hres]
  refine ⟨rfl, rfl, rfl, rfl, ?_, ?_⟩
  · intro hmem
    have hall := List.find?_eq_none.mp h
    have := hall _ hmem
    simp at this
  · unfold resolveTracabPlayer get_player_by_jersey_number
    rw [find?_append_of_none _ _ _ h]
    simp [List.find?_cons]

/-- Witness for the amended C6: jersey 7 is unseen in the one-player roster
`c6TracabRoster`. -/
theorem tracab_unseen_jersey_single_placeholder_witness :
    (resolveTracabPlayer Ground.home c6TracabRoster 7).2 =
      c6TracabRoster ++ [(resolveTracabPlayer Ground.home c6TracabRoster 7).1] ∧
    (resolveTracabPlayer Ground.home c6TracabRoster 7).1.player_id =
      groundStr Ground.home ++ "_" ++ toString 7 ∧
    (resolveTracabPlayer Ground.home c6TracabRoster 7).1.ground = Ground.home ∧
    (resolveTracabPlayer Ground.home c6TracabRoster 7).1.jersey_no = 7 ∧
    (resolveTracabPlayer Ground.home c6TracabRoster 7).1 ∉ c6TracabRoster ∧
    resolveTracabPlayer Ground.home
        (resolveTracabPlayer Ground.home c6TracabRoster 7).2 7 =
      ((resolveTracabPlayer Ground.home c6TracabRoster 7).1,
        (resolveTracabPlayer Ground.home c6TracabRoster 7).2) :=
  tracab_unseen_jersey_single_placeholder Ground.home c6TracabRoster 7
    (by decide)

/-- C6 counterexample: the PFF reader synthesizes no placeholder - its roster
scan leaks the loop variable, so the unseen jersey 7 silently resolves to the
last roster player (jersey 10) and the frame is keyed by that player. -/
theorem pff_unseen_jersey_no_placeholder :
    (pffGetFrameData c6Roster [] [(1, ⟨1, 0, 10⟩)] none c6Rec 1).map
      (fun f => f.players_data.map (fun e => e.1)) =
      .ok [⟨"h10", Ground.home, 10⟩] := by
  norm_num [pffGetFrameData, pffPlayersLoop, pffResolve, assocUpsert,
    c6Roster, c6Rec, List.lookup, Except.map]

/-! ## C7 -/

/-- C7 (amended): a player chunk whose team flag is a sentinel (-1, 3 or 4) is
skipped leaving the state untouched; any other unrecognized team id raises; a
line whose ball-owning code is neither `H` nor `A` can never produce a frame,
and neither can one whose ball-state code is neither `Alive` nor `Dead` - but
that state-code raise fires only when the line reaches `_frame_from_line`:
under the default `only_alive` the filter of `_iter` silently drops any line
not ending in the `Alive` code before assembly.  Concretely, a bad-owning line
makes the whole deserialize call fail under `only_alive`, and a bad-state line
makes it fail when `only_alive` is off. -/
theorem tracab_unknown_codes_policy :
    (∀ (st : TracabPlayersState) (c : TracabPlayerChunk),
      c.team_id = -1 ∨ c.team_id = 3 ∨ c.team_id = 4 →
        tracabStepChunk st c = .ok st) ∧
    (∀ (st : TracabPlayersState) (c : TracabPlayerChunk),
      ¬(c.team_id = 1 ∨ c.team_id = 0 ∨ c.team_id = -1 ∨ c.team_id = 3 ∨
          c.team_id = 4) →
        tracabStepChunk st c = .error (.unknownPlayerTeamId c.team_id)) ∧
    (∀ (home away : List Player) (period : Period) (line : TracabLine)
        (frame_rate : ℚ) (out : Frame × List Player × List Player),
      line.ball.owning ≠ "H" → line.ball.owning ≠ "A" →
        frameFromLine home away period line frame_rate ≠ .ok out) ∧
    (∀ (home away : List Player) (period : Period) (line : TracabLine)
        (frame_rate : ℚ) (out : Frame × List Player × List Player),
      line.ball.state ≠ "Alive" → line.ball.state ≠ "Dead" →
        frameFromLine home away period line frame_rate ≠ .ok out) ∧
    (∀ (frame_rate : ℚ) (periods : List Period) (sample : Nat)
        (ls : List TracabLine) (n : Nat) (line : TracabLine),
      tracabAlive line = false →
        tracabIterFrom frame_rate periods true sample (line :: ls) n =
          tracabIterFrom frame_rate periods true sample ls n) ∧
    tracabDeserialize 1 [⟨1, 0, 100⟩] [] [] true 1 none
        [tracabBadOwningLine] = .error (.unknownBallOwningTeam ("X")) ∧
    tracabDeserialize 1 [⟨1, 0, 100⟩] [] [] false 1 none
        [tracabBadStateLine] = .error (.unknownBallState ("Limbo")) := by
  refine ⟨?_, ?_, ?_, ?_, ?_, ?_, ?_⟩
  · intro st c hc
    obtain ⟨tid, tg, j, x, y, sp⟩ := c
    rcases hc with h | h | h <;> simp_all [tracabStepChunk]
  · intro st c hc
    push_neg at hc
    obtain ⟨h1, h0, hm1, h3, h4⟩ := hc
    simp [tracabStepChunk, h1, h0, hm1, h3, h4]
  · intro home away period line fr out hH hA hok
    unfold frameFromLine at hok
    cases hpl : tracabPlayersLoop ⟨home, away, []⟩ line.players with
    | error e => rw [hpl] at hok; simp at hok
    | ok st =>
      rw [hpl] at hok
      have e1 : (line.ball.owning == "H") = false :=
        beq_eq_false_iff_ne.mpr hH
      have e2 : (line.ball.owning == "A") = false :=
        beq_eq_false_iff_ne.mpr hA
      have hbo : tracabBallOwning line.ball.owning =
          .error (.unknownBallOwningTeam line.ball.owning) := by
        unfold tracabBallOwning
        rw [e1, e2]
        simp
      rw [hbo] at hok
      simp at hok
  · intro home away period line fr out hAl hDe hok
    unfold frameFromLine at hok
    cases hpl : tracabPlayersLoop ⟨home, away, []⟩ line.players with
    | error e => rw [hpl] at hok; simp at hok
    | ok st =>
      rw [hpl] at hok
      cases how : tracabBallOwning line.ball.owning with
      | error e => rw [how] at hok; simp at hok
      | ok ow =>
        rw [how] at hok
        have e1 : (line.ball.state == "Alive") = false :=
          beq_eq_false_iff_ne.mpr hAl
        have e2 : (line.ball.state == "Dead") = false :=
          beq_eq_false_iff_ne.mpr hDe
        have hbs : tracabBallState line.ball.state =
            .error (.unknownBallState line.ball.state) := by
          unfold tracabBallState
          rw [e1, e2]
          simp
        rw [hbs] at hok
        simp at hok
  · intro fr periods sample ls n line h
    simp [tracabIterFrom, h]
  · norm_num [tracabDeserialize, tracabCollect, tracabIter, tracabIterFrom,
      tracabScanPeriods, tracabAlive, frameFromLine, tracabPlayersLoop,
      tracabBallOwning, tracabBallState, limitActive, tracabBadOwningLine]
    rfl
  · norm_num [tracabDeserialize, tracabCollect, tracabIter, tracabIterFrom,
      tracabScanPeriods, tracabAlive, frameFromLine, tracabPlayersLoop,
      tracabBallOwning, tracabBallState, limitActive, tracabBadStateLine]
    rfl

/-- Witness for the amended C7 at concrete chunks and lines. -/
theorem tracab_unknown_codes_policy_witness :
    tracabStepChunk ⟨[], [], []⟩ ⟨-1, 0, 5, 0, 0, 0⟩ = .ok ⟨[], [], []⟩ ∧
    tracabStepChunk ⟨[], [], []⟩ ⟨7, 0, 5, 0, 0, 0⟩ =
      .error (.unknownPlayerTeamId 7) ∧
    frameFromLine [] [] ⟨1, 0, 100⟩ tracabBadOwningLine 1 ≠
      .ok (junkFrame, [], []) ∧
    frameFromLine [] [] ⟨1, 0, 100⟩ tracabBadStateLine 1 ≠
      .ok (junkFrame, [], []) ∧
    tracabIterFrom 1 [⟨1, 0, 100⟩] true 1 (tracabBadStateLine :: []) 0 =
      tracabIterFrom 1 [⟨1, 0, 100⟩] true 1 [] 0 :=
  ⟨tracab_unknown_codes_policy.1 ⟨[], [], []⟩ ⟨-1, 0, 5, 0, 0, 0⟩ (by decide),
   tracab_unknown_codes_policy.2.1 ⟨[], [], []⟩ ⟨7, 0, 5, 0, 0, 0⟩
      (by decide),
   tracab_unknown_codes_policy.2.2.1 [] [] ⟨1, 0, 100⟩ tracabBadOwningLine 1
      (junkFrame, [], []) (by decide) (by decide),
   tracab_unknown_codes_policy.2.2.2.1 [] [] ⟨1, 0, 100⟩ tracabBadStateLine 1
      (junkFrame, [], []) (by decide) (by decide),
   tracab_unknown_codes_policy.2.2.2.2.1 1 [⟨1, 0, 100⟩] 1 [] 0
      tracabBadStateLine (by decide)⟩

/-- C7 counterexample: under the default `only_alive`, the line with the
unrecognized ball-state code `Limbo` is dropped by the alive filter of
`_iter` (tracab_dat.py line 169) before `_frame_from_line` ever runs, so the
load does not fail - it returns the frame of the following well-formed line.
The claim predicted a fatal `FormatError` and zero frames for this input. -/
theorem tracab_unknown_state_line_skipped_under_only_alive :
    tracabDeserialize 1 [⟨1, 0, 100⟩] [] [] true 1 none
        [tracabBadStateLine, tracabTestLine 16] =
      .ok { records := [tracabFrame16] } := by
  norm_num [tracabDeserialize, tracabCollect, tracabIter, tracabIterFrom,
    tracabScanPeriods, tracabAlive, frameFromLine, tracabPlayersLoop,
    tracabBallOwning, tracabBallState, limitActive, tracabBadStateLine,
    tracabTestLine, tracabFrame16]

/-! ## C8 -/

theorem pffLoadRaw_cons (limit : Option Nat) (sample : Nat) (hs : 1 ≤ sample)
    (r : PFFRawFrame) (rs : List PFFRawFrame) :
    ∃ rs2, pffLoadRaw limit sample (r :: rs) = r :: rs2 := by
  cases limit with
  | none => exact ⟨rs, rfl⟩
  | some l =>
    by_cases hl : 0 < l
    · refine ⟨rs.take (l * sample - 1), ?_⟩
      simp only [pffLoadRaw]
      rw [if_pos hl]
      have hpos : 1 ≤ l * sample := Nat.mul_pos hl (by omega)
      have hsucc : l * sample = (l * sample - 1) + 1 := by omega
      rw [hsucc, List.take_succ_cons]
      simp
    · refine ⟨rs, ?_⟩
      simp only [pffLoadRaw]
      rw [if_neg hl]

/-- C8 (amended): `self._ball_owning_team` is set in `__init__` only and never
reset by deserialize, so the carry-forward state persists across invocations
on the same object (the claim as stated fails, see the counterexample); a
call becomes independent of the inherited state exactly when it overwrites it
before the first read - in particular whenever the first raw record carries an
explicit possession value. -/
theorem pff_run_independent_when_first_record_explicit
    (adf : Frame → AttackingDirection) (homeRoster awayRoster : List Player)
    (frame_rate : ℚ) (homeTeamStartLeft : Bool) (sample : Nat)
    (limit : Option Nat) (r : PFFRawFrame) (rs : List PFFRawFrame)
    (init : Option Ground) (g : Ground)
    (hs : 1 ≤ sample) (hex : pffExplicitPossession r = some g) :
    pffDeserializeS adf homeRoster awayRoster frame_rate homeTeamStartLeft
        sample limit (r :: rs) init =
      pffDeserializeS adf homeRoster awayRoster frame_rate homeTeamStartLeft
        sample limit (r :: rs) none := by
  obtain ⟨rs2, hload⟩ := pffLoadRaw_cons limit sample hs r rs
  have hupd : pffUpdateBot init r = pffUpdateBot none r := by
    rw [pffUpdateBot_eq, pffUpdateBot_eq, hex]
  have hiter : pffIterFrom sample (r :: rs2) 0 init =
      pffIterFrom sample (r :: rs2) 0 none := by
    simp only [pffIterFrom, hupd]
  have hfin : pffFinalBot (r :: rs2) init = pffFinalBot (r :: rs2) none := by
    simp only [pffFinalBot, hupd]
  simp only [pffDeserializeS, hload, hiter, hfin]

/-- Witness for the amended C8: an inherited away-possession state does not
change the result when the first record carries explicit home possession. -/
theorem pff_run_independent_when_first_record_explicit_witness :
    pffDeserializeS c8adf [] [] 10 true 1 none (c8Xr :: [])
        (some Ground.away) =
      pffDeserializeS c8adf [] [] 10 true 1 none (c8Xr :: []) none :=
  pff_run_independent_when_first_record_explicit c8adf [] [] 10 true 1 none
    c8Xr [] (some Ground.away) Ground.home (by decide) (by decide)

/-- C8 counterexample: deserializing `c8X` leaves home possession behind on
the object, and the next call on archive `c8Y` (whose record has no
possession information) then reports home possession, while the same call on
a fresh object reports no possession - deserialize(Y) depends on the earlier
call. -/
theorem pff_carry_forward_leaks_across_invocations :
    c8FirstRunState = some Ground.home ∧
    pffRecordsBots (pffDeserializeS c8adf [] [] 10 true 1 none c8Y
      c8FirstRunState) = [some Ground.home] ∧
    pffRecordsBots (pffDeserializeS c8adf [] [] 10 true 1 none c8Y none) =
      [none] := by
  have h1 : c8FirstRunState = some Ground.home := by
    norm_num [c8FirstRunState, pffDeserializeS, pffLoadRaw, pffGetPeriods,
      pffPeriodIds, pffFinalBot, pffUpdateBot, pffIterFrom, pffCollect,
      pffGetFrameData, pffPlace, limitActive, List.lookup, c8Xr, c8adf]
  refine ⟨h1, ?_, ?_⟩
  · rw [h1]
    norm_num [pffRecordsBots, pffDeserializeS, pffLoadRaw, pffGetPeriods,
      pffPeriodIds, pffFinalBot, pffUpdateBot, pffIterFrom, pffCollect,
      pffGetFrameData, pffPlace, limitActive, List.lookup, c8Y, c8Yr, c8adf]
  · norm_num [pffRecordsBots, pffDeserializeS, pffLoadRaw, pffGetPeriods,
      pffPeriodIds, pffFinalBot, pffUpdateBot, pffIterFrom, pffCollect,
      pffGetFrameData, pffPlace, limitActive, List.lookup, c8Y, c8Yr, c8adf]

end Kloppy
